import Mathlib

/-!
# Verification of the Logrotator core (ipmgr_log_rotator.c)

Shallow embedding of the log-rotation and compression system from
`src/ipmgr_log_rotator.c`.  Filesystem state is modelled as a `List String`
of existing paths; every definition below is a direct transcription of the
corresponding C function.  Machine-level outcomes the C code merely consumes
(the result of `rename(2)`, the per-call results of `sendfile(2)`, the exit
status of the external `tar` command) are passed in as explicit parameters.
-/

/-! ## Configuration constants (lines 82-97 of the source) -/

/-- `DEFAULT_WATCH_DIR` from the source. -/
def WATCH_DIR : String := "var/log/"

/-- `DEFAULT_MAX_FILES` from the source: number of rotated log files kept. -/
def DEFAULT_MAX_FILES : Nat := 5

/-- `target_files` from the source: the configured log families, in order. -/
def targetFiles : List String := ["ipstrc", "pdtrc", "ipmgr", "inttrc"]

/-- `CTRL_F_DEL_OBSOLETE_TAR_FILES` is set in `control_flags`. -/
def CTRL_DEL_TAR : Bool := true

/-- `CTRL_F_DELETE_OBSOLETE_LOG_FILES` is set in `control_flags`. -/
def CTRL_DEL_LOGS : Bool := true

/-! ## Filesystem primitives

A filesystem is the list of paths that currently exist.  `removeFile` is
`remove(2)` (a no-op on a missing path, which the C code only reports);
`renameFile` is `rename(2)` (replacing the target if it exists, failing --
leaving the state unchanged -- when the source is missing). -/

/-- Model of `remove(2)` on the watched directory. -/
def removeFile (fs : List String) (n : String) : List String :=
  fs.filter (fun m => m != n)

/-- Model of `rename(2)`: if `o` exists it is renamed onto `n` (replacing any
existing `n`); if `o` does not exist the filesystem is unchanged. -/
def renameFile (fs : List String) (o n : String) : List String :=
  if fs.contains o then removeFile (removeFile fs o) n ++ [n] else fs

/-! ## String helpers used by the C code -/

/-- Boolean `strstr(hay, needle) != NULL`: `needle` occurs in `hay`. -/
def strstr (hay needle : String) : Bool :=
  decide (needle.toList <:+: hay.toList)

/-- `get_file_type_index` (lines 201-210): index of the first configured
family whose name occurs in `fname`, if any. -/
def get_file_type_index (fname : String) : Option Nat :=
  targetFiles.findIdx? (fun t => strstr fname t)

/-! ## Rotation engine (`file_rotate`, lines 575-639)

`file_rotate` removes `<base>.log.N` when present, then walks
`i = N-1 .. 0` renaming `<base>.log.i` to `<base>.log.i+1` when present.
If the iteration `i = N-1` renamed a file (i.e. a file moved into index `N`)
the per-family compression trigger is recorded
(`file_compression_state[idx] := { terminal_fname, needs_compression := true }`)
and the zipper semaphore is posted. -/

/-- Path of generation `i`: `snprintf("%s.log.%d", base, i)`. -/
def logN (base : String) (i : Nat) : String := base ++ ".log." ++ toString i

/-- Per-family compression state (`file_compression_state`, lines 162-165). -/
structure TriggerState where
  terminal_fname : String
  needs_compression : Bool
deriving DecidableEq, Repr

/-- One iteration of the rotation loop body (lines 596-616) at index `j`. -/
def rotStep (base : String) (j : Nat) (st : List String × Bool) :
    List String × Bool :=
  if st.1.contains (logN base j) then
    (renameFile st.1 (logN base j) (logN base (j + 1)),
     st.2 || decide (j = DEFAULT_MAX_FILES - 1))
  else st

/-- The rotation loop, `for (i = j; i >= 0; i--)`. -/
def rotDown (base : String) : Nat → List String × Bool → List String × Bool
  | 0, st => rotStep base 0 st
  | j + 1, st => rotDown base j (rotStep base (j + 1) st)

/-- The five-step rotation chain of `file_rotate` for `N = 5`
(`DEFAULT_MAX_FILES`), written out: steps `i = 4, 3, 2, 1, 0`. -/
def chain5 (base : String) (st : List String × Bool) : List String × Bool :=
  rotStep base 0 (rotStep base 1 (rotStep base 2 (rotStep base 3
    (rotStep base 4 st))))

/-- Result of `file_rotate`: the filesystem, the per-family trigger array and
whether the zipper semaphore was posted. -/
structure RotOut where
  fs : List String
  sts : List TriggerState
  posted : Bool
deriving DecidableEq, Repr

/-- Steps 1-2 of `file_rotate` (lines 582-616): remove `<base>.log.N` when
present, then run the descending rename loop.  Returns the filesystem and
the `ready_to_zip` flag. -/
def file_rotate_core (base : String) (fs : List String) :
    List String × Bool :=
  rotDown base (DEFAULT_MAX_FILES - 1)
    ((if fs.contains (logN base DEFAULT_MAX_FILES) then
        removeFile fs (logN base DEFAULT_MAX_FILES) else fs), false)

/-- `file_rotate` (lines 575-639). -/
def file_rotate (base : String) (fs : List String) (sts : List TriggerState) :
    RotOut :=
  let r := file_rotate_core base fs
  if r.2 then
    match get_file_type_index base with
    | none => ⟨r.1, sts, false⟩
    | some idx => ⟨r.1, sts.set idx ⟨logN base DEFAULT_MAX_FILES, true⟩, true⟩
  else ⟨r.1, sts, false⟩

/-! ## Name classification

`base_file_name_extract` (lines 655-676) takes the full path, checks that the
substring from the last `.` (`strrchr`) is exactly `".bak"`, and truncates at
the first `.` (`strchr`) to obtain the family base.  (The C `else` branch
`*last = '\0'` is unreachable: when a last dot exists, a first dot exists.) -/

/-- `base_file_name_extract` (lines 655-676): `some base` on success. -/
def base_file_name_extract (name : String) : Option String :=
  if name.toList.contains '.' then
    if '.' :: (name.toList.reverse.takeWhile (fun c => c != '.')).reverse =
        ".bak".toList
    then some (String.mk (name.toList.takeWhile (fun c => c != '.')))
    else none
  else none

/-- Classification of a directory-event filename, combining the observer-side
filters of `log_rotate_thread_fn` (lines 908-926: must contain `".bak"`, must
contain a configured family name, first match wins) with the name-based
dispatch inside `handle_bak_file` (line 710: the `"dummy"` kick path; lines
721-725: `base_file_name_extract` rejection). -/
inductive EventClass where
  | ignore : EventClass
  | dummy (findex : Nat) : EventClass
  | sentinel (findex : Nat) (base : String) : EventClass
deriving DecidableEq, Repr

/-- The classifier induced by the source (see `EventClass`). -/
def classify (name : String) : EventClass :=
  if strstr name ".bak" then
    match get_file_type_index name with
    | none => EventClass.ignore
    | some j =>
      if strstr (WATCH_DIR ++ name) "dummy" then EventClass.dummy j
      else
        match base_file_name_extract (WATCH_DIR ++ name) with
        | none => EventClass.ignore
        | some base => EventClass.sentinel j base
  else EventClass.ignore

/-! ## Append path (`sendfile` loop, lines 763-797) -/

/-- Outcome of one `sendfile(2)` call, as the C loop distinguishes them:
a successful transfer of `n` bytes, a transient `EINTR`/`EAGAIN` failure
(the loop continues), or any other failure (the loop breaks). -/
inductive SfRes where
  | sent (n : Nat) : SfRes
  | eintr : SfRes
  | err : SfRes
deriving DecidableEq, Repr

/-- The `while (offset < st_size)` transfer loop (lines 772-785).  `sched` is
the sequence of kernel results; the kernel never transfers more than the
`size - offset` bytes requested, hence the clamp.  Returns the final
`offset`. -/
def sendfile_loop (size : Nat) : Nat → List SfRes → Nat
  | offset, [] => offset
  | offset, r :: rs =>
    if offset < size then
      match r with
      | SfRes.sent n => sendfile_loop size (min (offset + n) size) rs
      | SfRes.eintr => sendfile_loop size offset rs
      | SfRes.err => offset
    else offset

/-- `open(2)` flags appearing in the append path. -/
inductive OFlag where
  | O_RDONLY : OFlag
  | O_WRONLY : OFlag
  | O_APPEND : OFlag
deriving DecidableEq, Repr

/-- System calls issued by the append branch. -/
inductive Syscall where
  | openCall (path : String) (flags : List OFlag) : Syscall
  | fstatCall : Syscall
  | sendfileCall : Syscall
  | lseekEndCall : Syscall
  | closeCall : Syscall
  | removeCall (path : String) : Syscall
deriving DecidableEq, Repr

/-- The system-call sequence of the append branch of `handle_bak_file`
(lines 760-791), transcribed in order: open the sentinel `O_RDONLY` (line
760), open the destination `O_WRONLY|O_APPEND` (line 761), `fstat` the
source (line 767), the `sendfile` calls of the transfer loop (line 773),
close both descriptors (lines 787-788) and remove the sentinel (line 791).
No `lseek` call occurs anywhere in the branch. -/
def append_branch_syscalls (bakPath log0 : String) (sendfileCalls : Nat) :
    List Syscall :=
  [Syscall.openCall bakPath [OFlag.O_RDONLY],
   Syscall.openCall log0 [OFlag.O_WRONLY, OFlag.O_APPEND],
   Syscall.fstatCall]
  ++ (List.range sendfileCalls).map (fun _ => Syscall.sendfileCall)
  ++ [Syscall.closeCall, Syscall.closeCall, Syscall.removeCall bakPath]

/-- Model of the Linux `sendfile(2)` contract for the destination
descriptor: the call fails with `EINVAL` when `out_fd` has `O_APPEND` set
("EINVAL: ... O_APPEND is set for out_fd.  This is not currently supported
by sendfile()."). -/
def sendfile_out_fd_ok (flags : List OFlag) : Bool :=
  !(flags.contains OFlag.O_APPEND)

/-! ## Sentinel handler (`handle_bak_file`, lines 691-834) -/

/-- Result of one `handle_bak_file` call.  `rotation_invoked` records whether
`file_rotate` was called; `append_error` whether the append path reported a
failure (lines 794-797); `posted` whether the zipper semaphore was posted. -/
structure HOut where
  fs : List String
  sts : List TriggerState
  rotation_invoked : Bool
  append_error : Bool
  posted : Bool
deriving DecidableEq, Repr

/-- `handle_bak_file(bak_file, findex)` (lines 691-834).  `zip` is the value
read from `zip_in_progress`; `renameOk` is the outcome of the promotion
`rename` on the rotation path (line 820); `size` is the sentinel's `st_size`
and `sched` the `sendfile` schedule for the append path. -/
def handle_bak_file (fs : List String) (sts : List TriggerState)
    (bak_file : String) (findex : Nat) (zip renameOk : Bool)
    (size : Nat) (sched : List SfRes) : HOut :=
  let full := WATCH_DIR ++ bak_file
  if fs.contains full then
    if strstr full "dummy" then
      -- handle_dummy_bak_file_creation (lines 237-256), then remove the file
      let base := WATCH_DIR ++ targetFiles.getD findex ""
      let log0 := logN base 0
      if fs.contains log0 then
        let r := file_rotate base fs sts
        ⟨removeFile r.fs full, r.sts, true, false, r.posted⟩
      else ⟨removeFile fs full, sts, false, false, false⟩
    else
      match base_file_name_extract full with
      | none => ⟨fs, sts, false, false, false⟩
      | some base =>
        if zip then
          -- append strategy (lines 741-812)
          let log0 := logN base 0
          if fs.contains log0 then
            let offset := sendfile_loop size 0 sched
            if offset = size then ⟨removeFile fs full, sts, false, false, false⟩
            else ⟨fs, sts, false, true, false⟩
          else ⟨renameFile fs full log0, sts, false, false, false⟩
        else
          -- normal rotation path (lines 814-834)
          let fs1 := if renameOk then renameFile fs full (logN base 0) else fs
          let r := file_rotate base fs1 sts
          ⟨r.fs, r.sts, true, false, r.posted⟩
  else ⟨fs, sts, false, false, false⟩

/-! ## Post-compression re-home (`rename_all_log0_to_log1_log_file`,
lines 258-282).  Note the `return` (not `continue`) on a missing `.log.0`. -/

/-- Loop body of `rename_all_log0_to_log1_log_file` over the family list. -/
def rename_all_go : List String → List String → List String
  | fs, [] => fs
  | fs, fam :: rest =>
    let log0 := WATCH_DIR ++ fam ++ ".log.0"
    if fs.contains log0 then
      rename_all_go (renameFile fs log0 (WATCH_DIR ++ fam ++ ".log.1")) rest
    else fs

/-- `rename_all_log0_to_log1_log_file` (lines 258-282). -/
def rename_all_log0_to_log1 (fs : List String) : List String :=
  rename_all_go fs targetFiles

/-! ## Compression worker (`compress_all_log_files_with_name`, lines 308-450,
and `zip_log_file_thread_fn`, lines 466-550) -/

/-- A filesystem action performed by the compression cycle, in order. -/
inductive FsAction where
  | removeArchive (path : String) : FsAction
  | tarCreate (archive : String) (files : List String) : FsAction
  | tarFail (archive : String) : FsAction
  | removeLog (path : String) : FsAction
deriving DecidableEq, Repr

/-- The `sscanf(last_dot + 1, "%d", ...)` parse of line 323: read a leading
run of decimal digits (the file's numeric suffix, always a plain digit
string here). -/
def sscanfNat (l : List Char) : Option Nat :=
  match l.takeWhile (fun c => c.isDigit) with
  | [] => none
  | ds => some (ds.foldl (fun n c => n * 10 + (c.toNat - '0'.toNat)) 0)

/-- Split a string at its last `.` (the `strrchr` parse of lines 322-331). -/
def splitAtLastDot? (s : String) : Option (String × String) :=
  let l := s.toList
  if l.contains '.' then
    let after := (l.reverse.takeWhile (fun c => c != '.')).reverse
    some (String.mk (l.take (l.length - after.length - 1)), String.mk after)
  else none

/-- The filename component after the last `/` (lines 334-339). -/
def afterLastSlash (s : String) : String :=
  String.mk (s.toList.reverse.takeWhile (fun c => c != '/')).reverse

/-- Result of one `compress_all_log_files_with_name` call: the filesystem,
the static `archives[]` array, and the ordered trace of filesystem actions. -/
structure CompressOut where
  fs : List String
  archives : List String
  trace : List FsAction
deriving DecidableEq, Repr

/-- `compress_all_log_files_with_name` (lines 308-450).  `timestamp` is the
`strftime` result and `tarOk` the exit status of the `tar` command. -/
def compress_all_log_files_with_name (name : String) (fs : List String)
    (archives : List String) (timestamp : String) (tarOk : Bool) :
    CompressOut :=
  match splitAtLastDot? name with
  | none => ⟨fs, archives, []⟩
  | some (base, numStr) =>
    match sscanfNat numStr.toList with
    | none => ⟨fs, archives, []⟩
    | some max_index =>
      let fname := afterLastSlash base
      match get_file_type_index fname with
      | none => ⟨fs, archives, []⟩
      | some file_idx =>
        -- lines 363-370: old archive name saved, new name written into
        -- archives[file_idx] before anything runs
        let old_archive := archives.getD file_idx ""
        let new_archive := WATCH_DIR ++ fname ++ "_" ++ timestamp ++ ".tar.gz"
        let archives1 := archives.set file_idx new_archive
        -- lines 386-400: collect existing numbered files 1..max_index
        let nums := (List.range max_index).map (fun i => i + 1)
        let path : Nat → String :=
          fun i => WATCH_DIR ++ fname ++ "." ++ toString i
        let collected := nums.filter (fun i => fs.contains (path i))
        if collected.isEmpty then ⟨fs, archives1, []⟩
        else
          -- lines 408-420: the old archive is deleted BEFORE tar runs
          let doDel := CTRL_DEL_TAR && old_archive != "" &&
            fs.contains old_archive
          let fs1 := if doDel then removeFile fs old_archive else fs
          let tr1 : List FsAction :=
            if doDel then [FsAction.removeArchive old_archive] else []
          -- lines 423-427: run tar; on failure return at once
          if tarOk then
            let fs2 := removeFile fs1 new_archive ++ [new_archive]
            let tr2 := tr1 ++ [FsAction.tarCreate new_archive
              (collected.map path)]
            -- lines 432-447: delete originals 1..max_index
            if CTRL_DEL_LOGS then
              ⟨(nums.map path).foldl removeFile fs2, archives1,
               tr2 ++ (nums.map path).map FsAction.removeLog⟩
            else ⟨fs2, archives1, tr2⟩
          else ⟨fs1, archives1, tr1 ++ [FsAction.tarFail new_archive]⟩

/-- Result of one iteration of the zipper thread loop. -/
structure ZipOut where
  sts : List TriggerState
  archives : List String
  fs : List String
  trace : List FsAction
deriving DecidableEq, Repr

/-- One iteration of `zip_log_file_thread_fn`'s work loop (lines 481-547):
find the first family whose trigger is set, clear the flag, compress its
terminal file, then re-home `.log.0` files. -/
def zipper_iteration (sts : List TriggerState) (archives fs : List String)
    (timestamp : String) (tarOk : Bool) : ZipOut :=
  match (List.range 4).find?
      (fun i => (sts.getD i ⟨"", false⟩).needs_compression) with
  | none => ⟨sts, archives, fs, []⟩
  | some i =>
    let fname := (sts.getD i ⟨"", false⟩).terminal_fname
    let sts' := sts.set i ⟨fname, false⟩
    let c := compress_all_log_files_with_name fname fs archives timestamp tarOk
    ⟨sts', c.archives, rename_all_log0_to_log1 c.fs, c.trace⟩

/-! ## Generic helper lemmas -/

lemma contains_iff_mem {α : Type} [BEq α] [LawfulBEq α] (fs : List α) (x : α) :
    fs.contains x = true ↔ x ∈ fs := by
  induction fs with
  | nil => simp
  | cons a l ih => simp [List.contains]

lemma mem_removeFile {fs : List String} {n x : String} :
    x ∈ removeFile fs n ↔ x ∈ fs ∧ x ≠ n := by
  simp [removeFile, List.mem_filter]

lemma toList_append (s t : String) :
    (s ++ t).toList = s.toList ++ t.toList :=
  String.data_append s t

/-- A pattern whose first element does not occur in `a` and which occurs in
`a ++ b` occurs in `b`. -/
lemma cons_infix_right {α : Type} {c : α} {cs a b : List α}
    (hc : c ∉ a) (h : (c :: cs) <:+: a ++ b) : (c :: cs) <:+: b := by
  induction a with
  | nil => simpa using h
  | cons d a' ih =>
    rcases h with ⟨s, t, hst⟩
    cases s with
    | nil =>
      rw [List.nil_append, List.cons_append, List.cons_append] at hst
      injection hst with hcd _
      exact absurd (by rw [hcd]; exact List.mem_cons_self d a') hc
    | cons d' s' =>
      rw [List.cons_append, List.cons_append] at hst
      injection hst with _ htl
      exact ih (fun hm => hc (List.mem_cons_of_mem d hm)) ⟨s', t, htl⟩

/-- A pattern whose first element does not occur in `a` and which is a suffix
of `a ++ b` is a suffix of `b`. -/
lemma cons_suffix_right {α : Type} {c : α} {cs a b : List α}
    (hc : c ∉ a) (h : (c :: cs) <:+ a ++ b) : (c :: cs) <:+ b := by
  induction a with
  | nil => simpa using h
  | cons d a' ih =>
    rcases h with ⟨s, hst⟩
    cases s with
    | nil =>
      rw [List.nil_append, List.cons_append] at hst
      injection hst with hcd _
      exact absurd (by rw [hcd]; exact List.mem_cons_self d a') hc
    | cons d' s' =>
      rw [List.cons_append, List.cons_append] at hst
      injection hst with _ htl
      exact ih (fun hm => hc (List.mem_cons_of_mem d hm)) ⟨s', htl⟩

/-- Occurrence of `"dummy"` in the full path is occurrence in the bare
filename: the watch directory `"var/log/"` contains no `'d'`. -/
lemma strstr_dummy_full (name : String) :
    strstr (WATCH_DIR ++ name) "dummy" = strstr name "dummy" := by
  unfold strstr
  rw [decide_eq_decide, toList_append]
  have hd : "dummy".toList = 'd' :: "ummy".toList := rfl
  constructor
  · intro h
    rw [hd] at h ⊢
    exact cons_infix_right (by decide) h
  · rintro ⟨s, t, hst⟩
    exact ⟨WATCH_DIR.toList ++ s, t, by rw [← hst]; simp⟩

/-- The head of a non-empty `dropWhile` result fails the predicate. -/
lemma dropWhile_head_false {α : Type} (p : α → Bool) :
    ∀ (l : List α) {x : α} {xs : List α},
      l.dropWhile p = x :: xs → p x = false := by
  intro l
  induction l with
  | nil => intro x xs h; simp at h
  | cons a t ih =>
    intro x xs h
    rw [List.dropWhile_cons] at h
    split at h
    · exact ih h
    · rename_i hp
      cases h
      simpa using hp

/-- If a path's `strrchr`-suffix is exactly `".bak"` then `".bak"` is a
suffix of the path (used to read `base_file_name_extract` conditions). -/
lemma bak_suffix_of_extract_cond {l : List Char}
    (h1 : l.contains '.' = true)
    (h2 : '.' :: (l.reverse.takeWhile (fun c => c != '.')).reverse =
      ".bak".toList) :
    ".bak".toList <:+ l := by
  have hb : ".bak".toList = '.' :: ['b', 'a', 'k'] := rfl
  rw [hb] at h2
  have h3 : (l.reverse.takeWhile (fun c => c != '.')).reverse =
      ['b', 'a', 'k'] := by injection h2
  have h4 : l.reverse.takeWhile (fun c => c != '.') = ['k', 'a', 'b'] := by
    have := congrArg List.reverse h3
    simpa using this
  have h5 : l.reverse.takeWhile (fun c => c != '.') ++
      l.reverse.dropWhile (fun c => c != '.') = l.reverse :=
    List.takeWhile_append_dropWhile _ _
  cases hdrop : l.reverse.dropWhile (fun c => c != '.') with
  | nil =>
    rw [h4, hdrop, List.append_nil] at h5
    have hmem : '.' ∈ l.reverse := by
      rw [List.mem_reverse]
      exact (contains_iff_mem l '.').mp h1
    rw [← h5] at hmem
    simp at hmem
  | cons h0 t =>
    have hp : (h0 != '.') = false :=
      dropWhile_head_false (fun c => c != '.') l.reverse hdrop
    have h0eq : h0 = '.' := by simpa using hp
    rw [h4, hdrop, h0eq] at h5
    refine ⟨t.reverse, ?_⟩
    rw [hb]
    have h6 := congrArg List.reverse h5
    simpa using h6

/-- `base_file_name_extract` rejects any path of which `".bak"` is not a
suffix. -/
lemma extract_eq_none_of_not_bak {s : String}
    (h : ¬ ".bak".toList <:+ s.toList) : base_file_name_extract s = none := by
  unfold base_file_name_extract
  split
  · split
    · rename_i hc hsuf
      exact absurd (bak_suffix_of_extract_cond hc hsuf) h
    · rfl
  · rfl

/-- Lifting the previous lemma to the full path: `"var/log/"` contains no
`'.'`, so a `".bak"` suffix of the full path is one of the filename. -/
lemma extract_full_eq_none {name : String}
    (h : ¬ ".bak".toList <:+ name.toList) :
    base_file_name_extract (WATCH_DIR ++ name) = none := by
  apply extract_eq_none_of_not_bak
  intro hfull
  rw [toList_append] at hfull
  have hb : ".bak".toList = '.' :: "bak".toList := rfl
  rw [hb] at hfull
  exact h (hb ▸ cons_suffix_right (by decide) hfull)

/-! ## Rotation-engine lemmas -/

/-- Generation names are pairwise distinct for small indices. -/
lemma logN_inj_le {i j : Nat} (base : String) (hi : i ≤ 6) (hj : j ≤ 6)
    (h : logN base i = logN base j) : i = j := by
  have h2 : (toString i).data = (toString j).data := by
    have h3 := congrArg String.data h
    simp only [logN, String.data_append, List.append_assoc] at h3
    exact List.append_cancel_left (List.append_cancel_left h3)
  interval_cases i <;> interval_cases j <;>
    first
    | rfl
    | exact absurd h2 (by decide)

lemma logN_ne {i j : Nat} (base : String) (hi : i ≤ 6) (hj : j ≤ 6)
    (hij : i ≠ j) : logN base i ≠ logN base j :=
  fun h => hij (logN_inj_le base hi hj h)

lemma mem_renameFile_of_ne {fs : List String} {o n x : String}
    (hxo : x ≠ o) (hxn : x ≠ n) : x ∈ renameFile fs o n ↔ x ∈ fs := by
  unfold renameFile
  split
  · simp [mem_removeFile, hxo, hxn]
  · exact Iff.rfl

lemma mem_renameFile_target {fs : List String} {o n : String}
    (_hon : o ≠ n) (habs : n ∉ fs) : n ∈ renameFile fs o n ↔ o ∈ fs := by
  unfold renameFile
  split
  · rename_i h
    rw [contains_iff_mem] at h
    simp [h]
  · rename_i h
    rw [contains_iff_mem] at h
    simp [habs, h]

lemma rotStep_fst (base : String) (j : Nat) (st : List String × Bool) :
    (rotStep base j st).1 =
      if st.1.contains (logN base j) then
        renameFile st.1 (logN base j) (logN base (j + 1))
      else st.1 := by
  unfold rotStep
  split <;> rfl

lemma rotStep_mem_untouched {base : String} {j : Nat}
    {st : List String × Bool} {x : String}
    (h1 : x ≠ logN base j) (h2 : x ≠ logN base (j + 1)) :
    x ∈ (rotStep base j st).1 ↔ x ∈ st.1 := by
  rw [rotStep_fst]
  split
  · exact mem_renameFile_of_ne h1 h2
  · exact Iff.rfl

lemma rotStep_source_out {base : String} {j : Nat} {st : List String × Bool}
    (hne : logN base j ≠ logN base (j + 1)) :
    logN base j ∉ (rotStep base j st).1 := by
  rw [rotStep_fst]
  split
  · rename_i h
    rw [contains_iff_mem] at h
    unfold renameFile
    rw [if_pos ((contains_iff_mem _ _).mpr h)]
    simp [mem_removeFile, hne]
  · rename_i h
    rw [contains_iff_mem] at h
    exact h

lemma rotStep_target_in {base : String} {j : Nat} {st : List String × Bool}
    (hne : logN base j ≠ logN base (j + 1))
    (habs : logN base (j + 1) ∉ st.1) :
    logN base (j + 1) ∈ (rotStep base j st).1 ↔ logN base j ∈ st.1 := by
  rw [rotStep_fst]
  split
  · exact mem_renameFile_target hne habs
  · rename_i h
    rw [contains_iff_mem] at h
    simp [habs, h]

lemma rotStep_snd_of_ne (base : String) (j : Nat) (st : List String × Bool)
    (hj : j ≠ 4) : (rotStep base j st).2 = st.2 := by
  unfold rotStep
  split <;> simp [DEFAULT_MAX_FILES, hj]

lemma rotStep_snd_four (base : String) (st : List String × Bool) :
    (rotStep base 4 st).2 = (st.1.contains (logN base 4) || st.2) := by
  unfold rotStep
  split <;> rename_i h
  · rw [h]
    simp [DEFAULT_MAX_FILES]
  · simp only [Bool.not_eq_true] at h
    rw [h]
    simp

lemma core_unfold (base : String) (fs : List String) :
    file_rotate_core base fs =
      rotStep base 0 (rotStep base 1 (rotStep base 2 (rotStep base 3
        (rotStep base 4
          ((if fs.contains (logN base 5) then removeFile fs (logN base 5)
            else fs), false))))) := rfl

lemma mem_fs1 {fs : List String} {base : String} {x : String}
    (hx : x ≠ logN base 5) :
    (x ∈ (if fs.contains (logN base 5) then removeFile fs (logN base 5)
      else fs)) ↔ x ∈ fs := by
  split
  · simp [mem_removeFile, hx]
  · exact Iff.rfl

lemma l5_not_fs1 {fs : List String} {base : String} :
    logN base 5 ∉
      (if fs.contains (logN base 5) then removeFile fs (logN base 5)
       else fs) := by
  split
  · simp [mem_removeFile]
  · rename_i h
    rw [contains_iff_mem] at h
    exact h

/-- Variant of `logN_ne` with explicit indices, convenient for `rw`. -/
lemma logN_ne' (base : String) (i j : Nat) (hij : i ≠ j) (hi : i ≤ 6)
    (hj : j ≤ 6) : logN base i ≠ logN base j :=
  logN_ne base hi hj hij

lemma core_fs1_eq (base : String) (fs : List String) :
    file_rotate_core base fs =
      chain5 base
        ((if fs.contains (logN base 5) then removeFile fs (logN base 5)
          else fs), false) := rfl

lemma chain5_l0_out (base : String) (st : List String × Bool) :
    logN base 0 ∉ (chain5 base st).1 := by
  unfold chain5
  exact rotStep_source_out (logN_ne' base 0 1 (by decide) (by decide)
    (by decide))

lemma chain5_shift1 (base : String) (g : List String) (b : Bool) :
    logN base 1 ∈ (chain5 base (g, b)).1 ↔ logN base 0 ∈ g := by
  unfold chain5
  rw [rotStep_target_in
      (logN_ne' base 0 1 (by decide) (by decide) (by decide))
      (rotStep_source_out
        (logN_ne' base 1 2 (by decide) (by decide) (by decide)))]
  rw [rotStep_mem_untouched
      (logN_ne' base 0 1 (by decide) (by decide) (by decide))
      (logN_ne' base 0 2 (by decide) (by decide) (by decide)),
    rotStep_mem_untouched
      (logN_ne' base 0 2 (by decide) (by decide) (by decide))
      (logN_ne' base 0 3 (by decide) (by decide) (by decide)),
    rotStep_mem_untouched
      (logN_ne' base 0 3 (by decide) (by decide) (by decide))
      (logN_ne' base 0 4 (by decide) (by decide) (by decide))]
  exact rotStep_mem_untouched
    (logN_ne' base 0 4 (by decide) (by decide) (by decide))
    (logN_ne' base 0 5 (by decide) (by decide) (by decide))

lemma chain5_shift2 (base : String) (g : List String) (b : Bool) :
    logN base 2 ∈ (chain5 base (g, b)).1 ↔ logN base 1 ∈ g := by
  unfold chain5
  rw [rotStep_mem_untouched
      (logN_ne' base 2 0 (by decide) (by decide) (by decide))
      (logN_ne' base 2 1 (by decide) (by decide) (by decide))]
  rw [rotStep_target_in
      (logN_ne' base 1 2 (by decide) (by decide) (by decide))
      (rotStep_source_out
        (logN_ne' base 2 3 (by decide) (by decide) (by decide)))]
  rw [rotStep_mem_untouched
      (logN_ne' base 1 2 (by decide) (by decide) (by decide))
      (logN_ne' base 1 3 (by decide) (by decide) (by decide)),
    rotStep_mem_untouched
      (logN_ne' base 1 3 (by decide) (by decide) (by decide))
      (logN_ne' base 1 4 (by decide) (by decide) (by decide))]
  exact rotStep_mem_untouched
    (logN_ne' base 1 4 (by decide) (by decide) (by decide))
    (logN_ne' base 1 5 (by decide) (by decide) (by decide))

lemma chain5_shift3 (base : String) (g : List String) (b : Bool) :
    logN base 3 ∈ (chain5 base (g, b)).1 ↔ logN base 2 ∈ g := by
  unfold chain5
  rw [rotStep_mem_untouched
      (logN_ne' base 3 0 (by decide) (by decide) (by decide))
      (logN_ne' base 3 1 (by decide) (by decide) (by decide)),
    rotStep_mem_untouched
      (logN_ne' base 3 1 (by decide) (by decide) (by decide))
      (logN_ne' base 3 2 (by decide) (by decide) (by decide))]
  rw [rotStep_target_in
      (logN_ne' base 2 3 (by decide) (by decide) (by decide))
      (rotStep_source_out
        (logN_ne' base 3 4 (by decide) (by decide) (by decide)))]
  rw [rotStep_mem_untouched
      (logN_ne' base 2 3 (by decide) (by decide) (by decide))
      (logN_ne' base 2 4 (by decide) (by decide) (by decide))]
  exact rotStep_mem_untouched
    (logN_ne' base 2 4 (by decide) (by decide) (by decide))
    (logN_ne' base 2 5 (by decide) (by decide) (by decide))

lemma chain5_shift4 (base : String) (g : List String) (b : Bool) :
    logN base 4 ∈ (chain5 base (g, b)).1 ↔ logN base 3 ∈ g := by
  unfold chain5
  rw [rotStep_mem_untouched
      (logN_ne' base 4 0 (by decide) (by decide) (by decide))
      (logN_ne' base 4 1 (by decide) (by decide) (by decide)),
    rotStep_mem_untouched
      (logN_ne' base 4 1 (by decide) (by decide) (by decide))
      (logN_ne' base 4 2 (by decide) (by decide) (by decide)),
    rotStep_mem_untouched
      (logN_ne' base 4 2 (by decide) (by decide) (by decide))
      (logN_ne' base 4 3 (by decide) (by decide) (by decide))]
  rw [rotStep_target_in
      (logN_ne' base 3 4 (by decide) (by decide) (by decide))
      (rotStep_source_out
        (logN_ne' base 4 5 (by decide) (by decide) (by decide)))]
  exact rotStep_mem_untouched
    (logN_ne' base 3 4 (by decide) (by decide) (by decide))
    (logN_ne' base 3 5 (by decide) (by decide) (by decide))

lemma chain5_shift5 (base : String) (g : List String) (b : Bool)
    (h5 : logN base 5 ∉ g) :
    logN base 5 ∈ (chain5 base (g, b)).1 ↔ logN base 4 ∈ g := by
  unfold chain5
  rw [rotStep_mem_untouched
      (logN_ne' base 5 0 (by decide) (by decide) (by decide))
      (logN_ne' base 5 1 (by decide) (by decide) (by decide)),
    rotStep_mem_untouched
      (logN_ne' base 5 1 (by decide) (by decide) (by decide))
      (logN_ne' base 5 2 (by decide) (by decide) (by decide)),
    rotStep_mem_untouched
      (logN_ne' base 5 2 (by decide) (by decide) (by decide))
      (logN_ne' base 5 3 (by decide) (by decide) (by decide)),
    rotStep_mem_untouched
      (logN_ne' base 5 3 (by decide) (by decide) (by decide))
      (logN_ne' base 5 4 (by decide) (by decide) (by decide))]
  exact rotStep_target_in
    (logN_ne' base 4 5 (by decide) (by decide) (by decide)) h5

lemma chain5_untouched (base : String) (g : List String) (b : Bool)
    (x : String) (hx : ∀ i, i ≤ 5 → x ≠ logN base i) :
    x ∈ (chain5 base (g, b)).1 ↔ x ∈ g := by
  unfold chain5
  rw [rotStep_mem_untouched (hx 0 (by decide)) (hx 1 (by decide)),
    rotStep_mem_untouched (hx 1 (by decide)) (hx 2 (by decide)),
    rotStep_mem_untouched (hx 2 (by decide)) (hx 3 (by decide)),
    rotStep_mem_untouched (hx 3 (by decide)) (hx 4 (by decide))]
  exact rotStep_mem_untouched (hx 4 (by decide)) (hx 5 (by decide))

lemma chain5_ready (base : String) (g : List String) :
    ((chain5 base (g, false)).2 = true) ↔ logN base 4 ∈ g := by
  unfold chain5
  rw [rotStep_snd_of_ne base 0 _ (by decide),
    rotStep_snd_of_ne base 1 _ (by decide),
    rotStep_snd_of_ne base 2 _ (by decide),
    rotStep_snd_of_ne base 3 _ (by decide),
    rotStep_snd_four]
  simp [contains_iff_mem]

/-! ### Assembled `file_rotate` characterization -/

lemma file_rotate_fs (base : String) (fs : List String)
    (sts : List TriggerState) :
    (file_rotate base fs sts).fs = (file_rotate_core base fs).1 := by
  cases hr : (file_rotate_core base fs).2
  · simp [file_rotate, hr]
  · cases hg : get_file_type_index base
    · simp [file_rotate, hr, hg]
    · simp [file_rotate, hr, hg]

lemma file_rotate_posted_core (base : String) (fs : List String)
    (sts : List TriggerState) (idx : Nat)
    (h : get_file_type_index base = some idx) :
    (file_rotate base fs sts).posted = (file_rotate_core base fs).2 := by
  cases hr : (file_rotate_core base fs).2
  · simp [file_rotate, hr]
  · simp [file_rotate, hr, h]

lemma file_rotate_sts_core (base : String) (fs : List String)
    (sts : List TriggerState) (idx : Nat)
    (h : get_file_type_index base = some idx) :
    (file_rotate base fs sts).sts =
      (if (file_rotate_core base fs).2 = true then
        sts.set idx ⟨logN base DEFAULT_MAX_FILES, true⟩ else sts) := by
  cases hr : (file_rotate_core base fs).2
  · simp [file_rotate, hr]
  · simp [file_rotate, hr, h]

/-- After `file_rotate`, generation 0 is gone (it was renamed to 1 if it
existed). -/
lemma file_rotate_l0_out (base : String) (fs : List String)
    (sts : List TriggerState) :
    logN base 0 ∉ (file_rotate base fs sts).fs := by
  rw [file_rotate_fs, core_fs1_eq]
  exact chain5_l0_out base _

/-- After `file_rotate`, generation `k` (for `1 ≤ k ≤ N`) holds exactly what
generation `k-1` held before. -/
lemma file_rotate_shift (base : String) (fs : List String)
    (sts : List TriggerState) :
    ∀ k, 1 ≤ k → k ≤ 5 →
      ((logN base k ∈ (file_rotate base fs sts).fs) ↔
        logN base (k - 1) ∈ fs) := by
  intro k h1 h5
  rw [file_rotate_fs, core_fs1_eq]
  interval_cases k
  · rw [chain5_shift1]
    exact mem_fs1 (logN_ne' base 0 5 (by decide) (by decide) (by decide))
  · rw [chain5_shift2]
    exact mem_fs1 (logN_ne' base 1 5 (by decide) (by decide) (by decide))
  · rw [chain5_shift3]
    exact mem_fs1 (logN_ne' base 2 5 (by decide) (by decide) (by decide))
  · rw [chain5_shift4]
    exact mem_fs1 (logN_ne' base 3 5 (by decide) (by decide) (by decide))
  · rw [chain5_shift5 base _ _ l5_not_fs1]
    exact mem_fs1 (logN_ne' base 4 5 (by decide) (by decide) (by decide))

/-- `file_rotate` touches no path outside the generation chain. -/
lemma file_rotate_untouched (base : String) (fs : List String)
    (sts : List TriggerState) (x : String)
    (hx : ∀ i, i ≤ 5 → x ≠ logN base i) :
    (x ∈ (file_rotate base fs sts).fs) ↔ x ∈ fs := by
  rw [file_rotate_fs, core_fs1_eq, chain5_untouched base _ _ x hx]
  exact mem_fs1 (hx 5 (by decide))

/-- The zipper is signalled exactly when generation `N-1` existed (and hence
was moved into index `N`). -/
lemma file_rotate_posted_iff (base : String) (fs : List String)
    (sts : List TriggerState) (idx : Nat)
    (h : get_file_type_index base = some idx) :
    ((file_rotate base fs sts).posted = true) ↔ logN base 4 ∈ fs := by
  rw [file_rotate_posted_core base fs sts idx h, core_fs1_eq, chain5_ready]
  exact mem_fs1 (logN_ne' base 4 5 (by decide) (by decide) (by decide))

/-- The trigger state after `file_rotate`. -/
lemma file_rotate_sts_eq (base : String) (fs : List String)
    (sts : List TriggerState) (idx : Nat)
    (h : get_file_type_index base = some idx) :
    (file_rotate base fs sts).sts =
      (if logN base 4 ∈ fs then
        sts.set idx ⟨logN base DEFAULT_MAX_FILES, true⟩ else sts) := by
  have hiff : ((file_rotate_core base fs).2 = true) ↔ logN base 4 ∈ fs := by
    rw [core_fs1_eq, chain5_ready]
    exact mem_fs1 (logN_ne' base 4 5 (by decide) (by decide) (by decide))
  rw [file_rotate_sts_core base fs sts idx h]
  by_cases hm : logN base 4 ∈ fs
  · rw [if_pos (hiff.mpr hm), if_pos hm]
  · rw [if_neg (fun hc => hm (hiff.mp hc)), if_neg hm]

/-- The transfer loop never moves the offset past the file size. -/
lemma sendfile_loop_le (size : Nat) :
    ∀ (sched : List SfRes) (offset : Nat), offset ≤ size →
      sendfile_loop size offset sched ≤ size := by
  intro sched
  induction sched with
  | nil => intro o h; exact h
  | cons r rs ih =>
    intro o h
    unfold sendfile_loop
    split
    · cases r with
      | sent n => exact ih _ (min_le_right _ _)
      | eintr => exact ih _ h
      | err => exact h
    · exact h

/-! ## Claim theorems -/

/-- C1: the claim says the new archive is created before the prior archive
is removed.  The code does the opposite: at a cycle with a recorded prior
archive present and a numbered generation to archive, the action trace
begins with the removal of the old archive (lines 408-420), and only then
runs `tar` to create the new one (lines 423-427).  This contradicts the
function's own header comment ("5. Delete old archive (after new one
succeeds)", lines 299-301). -/
theorem C1_archive_removed_before_created :
    (compress_all_log_files_with_name "var/log/ipmgr.log.5"
      ["var/log/ipmgr.log_2025-01-01_00-00-00.tar.gz", "var/log/ipmgr.log.5"]
      ["", "", "var/log/ipmgr.log_2025-01-01_00-00-00.tar.gz", ""]
      "2025-02-02_00-00-00" true).trace =
    [FsAction.removeArchive "var/log/ipmgr.log_2025-01-01_00-00-00.tar.gz",
     FsAction.tarCreate "var/log/ipmgr.log_2025-02-02_00-00-00.tar.gz"
       ["var/log/ipmgr.log.5"],
     FsAction.removeLog "var/log/ipmgr.log.1",
     FsAction.removeLog "var/log/ipmgr.log.2",
     FsAction.removeLog "var/log/ipmgr.log.3",
     FsAction.removeLog "var/log/ipmgr.log.4",
     FsAction.removeLog "var/log/ipmgr.log.5"] := by
  decide

/-- C2: the claim says every configured family with a `.log.0` is re-homed.
The code `return`s (instead of `continue`) at the first family whose
`.log.0` is missing (line 269).  Evaluation at the failing input: with
`ipstrc.log.0` (the first family) absent and `pdtrc.log.0` present, the
re-home loop renames nothing. -/
theorem C2_rehome_returns_at_first_missing :
    rename_all_log0_to_log1 ["var/log/pdtrc.log.0"] = ["var/log/pdtrc.log.0"]
    ∧ "var/log/pdtrc.log.1" ∉
        rename_all_log0_to_log1 ["var/log/pdtrc.log.0"] := by
  decide

/-- C3 as stated is false of the code: when the promotion rename fails
(`renameOk = false`), the handler does not return -- it logs and still
invokes the Rotation Engine (lines 820-831 have no early return), which
here rotates the existing `.log.0` to `.log.1`. -/
theorem C3_counterexample :
    (handle_bak_file ["var/log/ipmgr.1111.bak", "var/log/ipmgr.log.0"]
        [⟨"", false⟩, ⟨"", false⟩, ⟨"", false⟩, ⟨"", false⟩]
        "ipmgr.1111.bak" 2 false false 0 []).rotation_invoked = true
    ∧ "var/log/ipmgr.log.1" ∈
        (handle_bak_file ["var/log/ipmgr.1111.bak", "var/log/ipmgr.log.0"]
          [⟨"", false⟩, ⟨"", false⟩, ⟨"", false⟩, ⟨"", false⟩]
          "ipmgr.1111.bak" 2 false false 0 []).fs
    ∧ "var/log/ipmgr.log.0" ∉
        (handle_bak_file ["var/log/ipmgr.1111.bak", "var/log/ipmgr.log.0"]
          [⟨"", false⟩, ⟨"", false⟩, ⟨"", false⟩, ⟨"", false⟩]
          "ipmgr.1111.bak" 2 false false 0 []).fs := by
  decide

/-- C3 (amended): on the rotation path, a failed promotion rename is logged
and the sentinel remains in place, but the handler nevertheless invokes the
Rotation Engine (so the generation chain is rotated). -/
theorem C3_amended_rename_failure (fs : List String)
    (sts : List TriggerState) (name base : String) (findex : Nat)
    (hmem : (WATCH_DIR ++ name) ∈ fs)
    (hdum : strstr (WATCH_DIR ++ name) "dummy" = false)
    (hext : base_file_name_extract (WATCH_DIR ++ name) = some base)
    (hni : ∀ i, i ≤ DEFAULT_MAX_FILES → WATCH_DIR ++ name ≠ logN base i) :
    (handle_bak_file fs sts name findex false false 0 []).rotation_invoked
        = true
    ∧ (WATCH_DIR ++ name) ∈
        (handle_bak_file fs sts name findex false false 0 []).fs := by
  constructor
  · simp [handle_bak_file, hmem, hdum, hext]
  · have hrot := (file_rotate_untouched base fs sts _ hni).mpr hmem
    simp [handle_bak_file, hmem, hdum, hext, hrot]

/-- Witness for C3 (amended) at a concrete input. -/
theorem C3_amended_rename_failure_witness :
    ((WATCH_DIR ++ "ipmgr.1111.bak") ∈
        ["var/log/ipmgr.1111.bak", "var/log/ipmgr.log.0"]
      ∧ strstr (WATCH_DIR ++ "ipmgr.1111.bak") "dummy" = false
      ∧ base_file_name_extract (WATCH_DIR ++ "ipmgr.1111.bak") =
          some "var/log/ipmgr"
      ∧ (∀ i, i ≤ DEFAULT_MAX_FILES →
          WATCH_DIR ++ "ipmgr.1111.bak" ≠ logN "var/log/ipmgr" i))
    ∧ ((handle_bak_file ["var/log/ipmgr.1111.bak", "var/log/ipmgr.log.0"]
          [⟨"", false⟩, ⟨"", false⟩, ⟨"", false⟩, ⟨"", false⟩]
          "ipmgr.1111.bak" 2 false false 0 []).rotation_invoked = true
      ∧ (WATCH_DIR ++ "ipmgr.1111.bak") ∈
          (handle_bak_file ["var/log/ipmgr.1111.bak", "var/log/ipmgr.log.0"]
            [⟨"", false⟩, ⟨"", false⟩, ⟨"", false⟩, ⟨"", false⟩]
            "ipmgr.1111.bak" 2 false false 0 []).fs) :=
  ⟨⟨by decide, by decide, by decide, by decide⟩,
    C3_amended_rename_failure
      ["var/log/ipmgr.1111.bak", "var/log/ipmgr.log.0"]
      [⟨"", false⟩, ⟨"", false⟩, ⟨"", false⟩, ⟨"", false⟩]
      "ipmgr.1111.bak" "var/log/ipmgr" 2
      (by decide) (by decide) (by decide) (by decide)⟩

/-- C4: the claim says the destination is NOT opened in an append-only mode
and an explicit seek-to-end is used.  The code opens the destination with
`O_WRONLY|O_APPEND` (line 761) and performs no seek, and under the
documented `sendfile(2)` contract that open mode makes the zero-copy
transfer fail with `EINVAL`. -/
theorem C4_append_opens_o_append_no_seek :
    Syscall.openCall "var/log/ipmgr.log.0" [OFlag.O_WRONLY, OFlag.O_APPEND]
        ∈ append_branch_syscalls "var/log/ipmgr.3333.bak"
            "var/log/ipmgr.log.0" 1
    ∧ Syscall.lseekEndCall ∉
        append_branch_syscalls "var/log/ipmgr.3333.bak"
          "var/log/ipmgr.log.0" 1
    ∧ sendfile_out_fd_ok [OFlag.O_WRONLY, OFlag.O_APPEND] = false := by
  decide

/-- C5 as stated is false of the code: the no-stamp name `ipmgr.bak` is not
ignored.  `base_file_name_extract` accepts it (its `strrchr` suffix is
exactly `".bak"`), the classifier returns Sentinel, and handling the event
promotes the file to `.log.0` and rotates (so the filesystem changes). -/
theorem C5_counterexample :
    classify "ipmgr.bak" = EventClass.sentinel 2 "var/log/ipmgr"
    ∧ classify "ipmgr.bak" ≠ EventClass.ignore
    ∧ (handle_bak_file ["var/log/ipmgr.bak"]
        [⟨"", false⟩, ⟨"", false⟩, ⟨"", false⟩, ⟨"", false⟩]
        "ipmgr.bak" 2 false true 0 []).fs = ["var/log/ipmgr.log.1"] := by
  decide

/-- C5 (amended): for every configured family, the exact name
`<family>.bak` is classified as a Sentinel for that family with base
`D/<family>` -- it is treated like any stamped sentinel, not ignored. -/
theorem C5_amended_no_stamp_accepted :
    classify "ipstrc.bak" = EventClass.sentinel 0 "var/log/ipstrc"
    ∧ classify "pdtrc.bak" = EventClass.sentinel 1 "var/log/pdtrc"
    ∧ classify "ipmgr.bak" = EventClass.sentinel 2 "var/log/ipmgr"
    ∧ classify "inttrc.bak" = EventClass.sentinel 3 "var/log/inttrc" := by
  decide

/-- C6 as stated is false of the code: `ipmgr.dummy.bak.1` contains `.bak`
not as terminal suffix, yet it is not ignored -- the `"dummy"` check (line
710) fires first, and handling the event removes the file (a filesystem
change). -/
theorem C6_counterexample :
    classify "ipmgr.dummy.bak.1" = EventClass.dummy 2
    ∧ classify "ipmgr.dummy.bak.1" ≠ EventClass.ignore
    ∧ (handle_bak_file ["var/log/ipmgr.dummy.bak.1"]
        [⟨"", false⟩, ⟨"", false⟩, ⟨"", false⟩, ⟨"", false⟩]
        "ipmgr.dummy.bak.1" 2 false true 0 []).fs = [] := by
  decide

/-- C6 (amended): a filename that contains `".bak"` but does not end in
`".bak"` and does not contain `"dummy"` is ignored: the classifier rejects
it and the handler leaves the filesystem and trigger state unchanged. -/
theorem C6_amended_nonterminal_bak (name : String) (fs : List String)
    (sts : List TriggerState) (findex : Nat) (zip renameOk : Bool)
    (size : Nat) (sched : List SfRes)
    (hbak : strstr name ".bak" = true)
    (hterm : ¬ ".bak".toList <:+ name.toList)
    (hdum : strstr name "dummy" = false) :
    classify name = EventClass.ignore
    ∧ handle_bak_file fs sts name findex zip renameOk size sched =
        ⟨fs, sts, false, false, false⟩ := by
  have hdf : strstr (WATCH_DIR ++ name) "dummy" = false := by
    rw [strstr_dummy_full]
    exact hdum
  have hex : base_file_name_extract (WATCH_DIR ++ name) = none :=
    extract_full_eq_none hterm
  constructor
  · cases hg : get_file_type_index name with
    | none => simp [classify, hbak, hg]
    | some j => simp [classify, hbak, hg, hdf, hex]
  · by_cases hm : (WATCH_DIR ++ name) ∈ fs
    · simp [handle_bak_file, hm, hdf, hex]
    · simp [handle_bak_file, hm]

/-- Witness for C6 (amended) at a concrete input. -/
theorem C6_amended_nonterminal_bak_witness :
    (strstr "ipmgr.bak.1" ".bak" = true
      ∧ ¬ ".bak".toList <:+ "ipmgr.bak.1".toList
      ∧ strstr "ipmgr.bak.1" "dummy" = false)
    ∧ (classify "ipmgr.bak.1" = EventClass.ignore
      ∧ handle_bak_file ["var/log/ipmgr.bak.1"]
          [⟨"", false⟩, ⟨"", false⟩, ⟨"", false⟩, ⟨"", false⟩]
          "ipmgr.bak.1" 2 false true 0 [] =
        ⟨["var/log/ipmgr.bak.1"],
          [⟨"", false⟩, ⟨"", false⟩, ⟨"", false⟩, ⟨"", false⟩],
          false, false, false⟩) :=
  ⟨⟨by decide, by decide, by decide⟩,
    C6_amended_nonterminal_bak "ipmgr.bak.1" ["var/log/ipmgr.bak.1"]
      [⟨"", false⟩, ⟨"", false⟩, ⟨"", false⟩, ⟨"", false⟩]
      2 false true 0 [] (by decide) (by decide) (by decide)⟩

/-- C7: the Rotation Engine removes `<family>.log.N` when present, shifts
every existing generation `i` (for `i = N-1` down to `0`) to `i+1`, touches
nothing else, and raises the compression trigger -- recording
`<family>.log.N` as the family's `pending_trigger_fname`, setting its
trigger flag and posting the worker semaphore -- exactly when a file was
moved into index `N`, i.e. exactly when generation `N-1` existed. -/
theorem C7_rotation_engine (base : String) (fs : List String)
    (sts : List TriggerState) (idx : Nat)
    (hidx : get_file_type_index base = some idx) :
    logN base 0 ∉ (file_rotate base fs sts).fs
    ∧ (∀ k, 1 ≤ k → k ≤ DEFAULT_MAX_FILES →
        ((logN base k ∈ (file_rotate base fs sts).fs) ↔
          logN base (k - 1) ∈ fs))
    ∧ (∀ x, (∀ i, i ≤ DEFAULT_MAX_FILES → x ≠ logN base i) →
        ((x ∈ (file_rotate base fs sts).fs) ↔ x ∈ fs))
    ∧ (((file_rotate base fs sts).posted = true) ↔
        logN base (DEFAULT_MAX_FILES - 1) ∈ fs)
    ∧ (file_rotate base fs sts).sts =
        (if logN base (DEFAULT_MAX_FILES - 1) ∈ fs then
          sts.set idx ⟨logN base DEFAULT_MAX_FILES, true⟩ else sts) :=
  ⟨file_rotate_l0_out base fs sts,
   file_rotate_shift base fs sts,
   fun x hx => file_rotate_untouched base fs sts x hx,
   file_rotate_posted_iff base fs sts idx hidx,
   file_rotate_sts_eq base fs sts idx hidx⟩

/-- Witness for C7 at a concrete input. -/
theorem C7_rotation_engine_witness :
    get_file_type_index "var/log/ipmgr" = some 2
    ∧ (logN "var/log/ipmgr" 0 ∉ (file_rotate "var/log/ipmgr"
          ["var/log/ipmgr.log.0", "var/log/ipmgr.log.4"]
          [⟨"", false⟩, ⟨"", false⟩, ⟨"", false⟩, ⟨"", false⟩]).fs
      ∧ (∀ k, 1 ≤ k → k ≤ DEFAULT_MAX_FILES →
          ((logN "var/log/ipmgr" k ∈ (file_rotate "var/log/ipmgr"
              ["var/log/ipmgr.log.0", "var/log/ipmgr.log.4"]
              [⟨"", false⟩, ⟨"", false⟩, ⟨"", false⟩, ⟨"", false⟩]).fs) ↔
            logN "var/log/ipmgr" (k - 1) ∈
              ["var/log/ipmgr.log.0", "var/log/ipmgr.log.4"]))
      ∧ (∀ x, (∀ i, i ≤ DEFAULT_MAX_FILES →
            x ≠ logN "var/log/ipmgr" i) →
          ((x ∈ (file_rotate "var/log/ipmgr"
              ["var/log/ipmgr.log.0", "var/log/ipmgr.log.4"]
              [⟨"", false⟩, ⟨"", false⟩, ⟨"", false⟩, ⟨"", false⟩]).fs) ↔
            x ∈ ["var/log/ipmgr.log.0", "var/log/ipmgr.log.4"]))
      ∧ (((file_rotate "var/log/ipmgr"
            ["var/log/ipmgr.log.0", "var/log/ipmgr.log.4"]
            [⟨"", false⟩, ⟨"", false⟩, ⟨"", false⟩,
              ⟨"", false⟩]).posted = true) ↔
          logN "var/log/ipmgr" (DEFAULT_MAX_FILES - 1) ∈
            ["var/log/ipmgr.log.0", "var/log/ipmgr.log.4"])
      ∧ (file_rotate "var/log/ipmgr"
            ["var/log/ipmgr.log.0", "var/log/ipmgr.log.4"]
            [⟨"", false⟩, ⟨"", false⟩, ⟨"", false⟩, ⟨"", false⟩]).sts =
          (if logN "var/log/ipmgr" (DEFAULT_MAX_FILES - 1) ∈
              ["var/log/ipmgr.log.0", "var/log/ipmgr.log.4"] then
            [⟨"", false⟩, ⟨"", false⟩, ⟨"", false⟩, ⟨"", false⟩].set 2
              ⟨logN "var/log/ipmgr" DEFAULT_MAX_FILES, true⟩
          else [⟨"", false⟩, ⟨"", false⟩, ⟨"", false⟩, ⟨"", false⟩])) :=
  ⟨by decide,
    C7_rotation_engine "var/log/ipmgr"
      ["var/log/ipmgr.log.0", "var/log/ipmgr.log.4"]
      [⟨"", false⟩, ⟨"", false⟩, ⟨"", false⟩, ⟨"", false⟩] 2 (by decide)⟩

/-- C8: the claim says a failing archiver leaves the prior archive in
place.  The code removed the prior archive before running `tar`, so after a
failing cycle the generations 1..N are indeed still present and the trigger
flag is clear, but the prior archive is gone (same root cause as C1).
Evaluation at the failing input. -/
theorem C8_tar_failure_cycle :
    (zipper_iteration
        [⟨"", false⟩, ⟨"", false⟩, ⟨"var/log/ipmgr.log.5", true⟩,
          ⟨"", false⟩]
        ["", "", "var/log/ipmgr.log_2025-01-01_00-00-00.tar.gz", ""]
        ["var/log/ipmgr.log_2025-01-01_00-00-00.tar.gz",
          "var/log/ipmgr.log.1", "var/log/ipmgr.log.2",
          "var/log/ipmgr.log.3", "var/log/ipmgr.log.4",
          "var/log/ipmgr.log.5"]
        "2025-02-02_00-00-00" false).sts =
      [⟨"", false⟩, ⟨"", false⟩, ⟨"var/log/ipmgr.log.5", false⟩,
        ⟨"", false⟩]
    ∧ (zipper_iteration
        [⟨"", false⟩, ⟨"", false⟩, ⟨"var/log/ipmgr.log.5", true⟩,
          ⟨"", false⟩]
        ["", "", "var/log/ipmgr.log_2025-01-01_00-00-00.tar.gz", ""]
        ["var/log/ipmgr.log_2025-01-01_00-00-00.tar.gz",
          "var/log/ipmgr.log.1", "var/log/ipmgr.log.2",
          "var/log/ipmgr.log.3", "var/log/ipmgr.log.4",
          "var/log/ipmgr.log.5"]
        "2025-02-02_00-00-00" false).fs =
      ["var/log/ipmgr.log.1", "var/log/ipmgr.log.2", "var/log/ipmgr.log.3",
        "var/log/ipmgr.log.4", "var/log/ipmgr.log.5"]
    ∧ (zipper_iteration
        [⟨"", false⟩, ⟨"", false⟩, ⟨"var/log/ipmgr.log.5", true⟩,
          ⟨"", false⟩]
        ["", "", "var/log/ipmgr.log_2025-01-01_00-00-00.tar.gz", ""]
        ["var/log/ipmgr.log_2025-01-01_00-00-00.tar.gz",
          "var/log/ipmgr.log.1", "var/log/ipmgr.log.2",
          "var/log/ipmgr.log.3", "var/log/ipmgr.log.4",
          "var/log/ipmgr.log.5"]
        "2025-02-02_00-00-00" false).trace =
      [FsAction.removeArchive "var/log/ipmgr.log_2025-01-01_00-00-00.tar.gz",
       FsAction.tarFail "var/log/ipmgr.log_2025-02-02_00-00-00.tar.gz"] := by
  decide

/-- C9: in the append path (compression running, `.log.0` present), a full
transfer removes the sentinel with no error; a partial transfer leaves the
sentinel in place and reports an error.  The loop offset never exceeds the
sentinel size. -/
theorem C9_append_transfer (fs : List String) (sts : List TriggerState)
    (name base : String) (findex : Nat) (size : Nat) (sched : List SfRes)
    (hmem : (WATCH_DIR ++ name) ∈ fs)
    (hdum : strstr (WATCH_DIR ++ name) "dummy" = false)
    (hext : base_file_name_extract (WATCH_DIR ++ name) = some base)
    (hlog0 : logN base 0 ∈ fs) :
    sendfile_loop size 0 sched ≤ size
    ∧ (sendfile_loop size 0 sched = size →
        handle_bak_file fs sts name findex true true size sched =
          ⟨removeFile fs (WATCH_DIR ++ name), sts, false, false, false⟩)
    ∧ (sendfile_loop size 0 sched < size →
        handle_bak_file fs sts name findex true true size sched =
          ⟨fs, sts, false, true, false⟩) := by
  refine ⟨sendfile_loop_le size sched 0 (Nat.zero_le _), ?_, ?_⟩
  · intro h
    simp [handle_bak_file, hmem, hdum, hext, hlog0, h]
  · intro h
    have hne : ¬ sendfile_loop size 0 sched = size := Nat.ne_of_lt h
    simp [handle_bak_file, hmem, hdum, hext, hlog0, hne]

/-- Witness for C9 at a concrete input (full transfer in one call). -/
theorem C9_append_transfer_witness :
    ((WATCH_DIR ++ "ipmgr.2222.bak") ∈
        ["var/log/ipmgr.2222.bak", "var/log/ipmgr.log.0"]
      ∧ strstr (WATCH_DIR ++ "ipmgr.2222.bak") "dummy" = false
      ∧ base_file_name_extract (WATCH_DIR ++ "ipmgr.2222.bak") =
          some "var/log/ipmgr"
      ∧ logN "var/log/ipmgr" 0 ∈
          ["var/log/ipmgr.2222.bak", "var/log/ipmgr.log.0"])
    ∧ (sendfile_loop 10 0 [SfRes.sent 10] ≤ 10
      ∧ (sendfile_loop 10 0 [SfRes.sent 10] = 10 →
          handle_bak_file ["var/log/ipmgr.2222.bak", "var/log/ipmgr.log.0"]
              [⟨"", false⟩, ⟨"", false⟩, ⟨"", false⟩, ⟨"", false⟩]
              "ipmgr.2222.bak" 2 true true 10 [SfRes.sent 10] =
            ⟨removeFile ["var/log/ipmgr.2222.bak", "var/log/ipmgr.log.0"]
                (WATCH_DIR ++ "ipmgr.2222.bak"),
              [⟨"", false⟩, ⟨"", false⟩, ⟨"", false⟩, ⟨"", false⟩],
              false, false, false⟩)
      ∧ (sendfile_loop 10 0 [SfRes.sent 10] < 10 →
          handle_bak_file ["var/log/ipmgr.2222.bak", "var/log/ipmgr.log.0"]
              [⟨"", false⟩, ⟨"", false⟩, ⟨"", false⟩, ⟨"", false⟩]
              "ipmgr.2222.bak" 2 true true 10 [SfRes.sent 10] =
            ⟨["var/log/ipmgr.2222.bak", "var/log/ipmgr.log.0"],
              [⟨"", false⟩, ⟨"", false⟩, ⟨"", false⟩, ⟨"", false⟩],
              false, true, false⟩)) :=
  ⟨⟨by decide, by decide, by decide, by decide⟩,
    C9_append_transfer ["var/log/ipmgr.2222.bak", "var/log/ipmgr.log.0"]
      [⟨"", false⟩, ⟨"", false⟩, ⟨"", false⟩, ⟨"", false⟩]
      "ipmgr.2222.bak" "var/log/ipmgr" 2 10 [SfRes.sent 10]
      (by decide) (by decide) (by decide) (by decide)⟩

/-- C10: an event filename containing `"dummy"` takes the dummy path (lines
710-718): the Rotation Engine is invoked if and only if the matched
family's `.log.0` exists, and the dummy file is then removed; when `.log.0`
is absent only the dummy file is removed and nothing else changes. -/
theorem C10_dummy_path (fs : List String) (sts : List TriggerState)
    (name : String) (findex : Nat) (zip renameOk : Bool) (size : Nat)
    (sched : List SfRes)
    (hmem : (WATCH_DIR ++ name) ∈ fs)
    (hdum : strstr name "dummy" = true) :
    (logN (WATCH_DIR ++ targetFiles.getD findex "") 0 ∉ fs →
        handle_bak_file fs sts name findex zip renameOk size sched =
          ⟨removeFile fs (WATCH_DIR ++ name), sts, false, false, false⟩)
    ∧ (logN (WATCH_DIR ++ targetFiles.getD findex "") 0 ∈ fs →
        handle_bak_file fs sts name findex zip renameOk size sched =
          ⟨removeFile
              (file_rotate (WATCH_DIR ++ targetFiles.getD findex "") fs
                sts).fs (WATCH_DIR ++ name),
            (file_rotate (WATCH_DIR ++ targetFiles.getD findex "") fs
              sts).sts,
            true, false,
            (file_rotate (WATCH_DIR ++ targetFiles.getD findex "") fs
              sts).posted⟩) := by
  have hdf : strstr (WATCH_DIR ++ name) "dummy" = true := by
    rw [strstr_dummy_full]
    exact hdum
  constructor
  · intro h0
    simp only [List.getD_eq_getElem?_getD] at h0
    simp [handle_bak_file, hmem, hdf, h0]
  · intro h0
    simp only [List.getD_eq_getElem?_getD] at h0
    simp [handle_bak_file, hmem, hdf, h0]

/-- Witness for C10 at a concrete input (no `.log.0` present). -/
theorem C10_dummy_path_witness :
    ((WATCH_DIR ++ "ipmgr.dummy.bak") ∈ ["var/log/ipmgr.dummy.bak"]
      ∧ strstr "ipmgr.dummy.bak" "dummy" = true)
    ∧ ((logN (WATCH_DIR ++ targetFiles.getD 2 "") 0 ∉
          ["var/log/ipmgr.dummy.bak"] →
        handle_bak_file ["var/log/ipmgr.dummy.bak"]
            [⟨"", false⟩, ⟨"", false⟩, ⟨"", false⟩, ⟨"", false⟩]
            "ipmgr.dummy.bak" 2 false true 0 [] =
          ⟨removeFile ["var/log/ipmgr.dummy.bak"]
              (WATCH_DIR ++ "ipmgr.dummy.bak"),
            [⟨"", false⟩, ⟨"", false⟩, ⟨"", false⟩, ⟨"", false⟩],
            false, false, false⟩)
      ∧ (logN (WATCH_DIR ++ targetFiles.getD 2 "") 0 ∈
          ["var/log/ipmgr.dummy.bak"] →
        handle_bak_file ["var/log/ipmgr.dummy.bak"]
            [⟨"", false⟩, ⟨"", false⟩, ⟨"", false⟩, ⟨"", false⟩]
            "ipmgr.dummy.bak" 2 false true 0 [] =
          ⟨removeFile
              (file_rotate (WATCH_DIR ++ targetFiles.getD 2 "")
                ["var/log/ipmgr.dummy.bak"]
                [⟨"", false⟩, ⟨"", false⟩, ⟨"", false⟩, ⟨"", false⟩]).fs
              (WATCH_DIR ++ "ipmgr.dummy.bak"),
            (file_rotate (WATCH_DIR ++ targetFiles.getD 2 "")
              ["var/log/ipmgr.dummy.bak"]
              [⟨"", false⟩, ⟨"", false⟩, ⟨"", false⟩, ⟨"", false⟩]).sts,
            true, false,
            (file_rotate (WATCH_DIR ++ targetFiles.getD 2 "")
              ["var/log/ipmgr.dummy.bak"]
              [⟨"", false⟩, ⟨"", false⟩, ⟨"", false⟩,
                ⟨"", false⟩]).posted⟩)) :=
  ⟨⟨by decide, by decide⟩,
    C10_dummy_path ["var/log/ipmgr.dummy.bak"]
      [⟨"", false⟩, ⟨"", false⟩, ⟨"", false⟩, ⟨"", false⟩]
      "ipmgr.dummy.bak" 2 false true 0 [] (by decide) (by decide)⟩
